import Mathlib

/-!
# sakura-signal: the signalling relay of `index.js`

A shallow embedding of the Socket.IO / Express relay in `index.js`:

* `JSMap` models the JavaScript `Map` held in `clientSocketMap` (insertion ordered,
  one entry per key);
* `onRegister`, `onSdpOffer`, `onDisconnect` model the three socket handlers installed
  by `io.on("connection", ...)`;
* `bodyParserJson`, `verifyMediaServer` and `answerRoute` model the three stages a
  `POST /media-server/answer` goes through: the JSON body parser installed for every
  request, the middleware of the route and its handler;
* `step` / `run` model the event loop dispatching one event at a time.

The body of a request is a JSON value (`Json`) and its fields may hold any value.
Strings received over the sockets (`clientId`, `sdp`), the `x-api-key` header and the
environment variables are `Option String`, `none` standing for `undefined`.
-/

namespace SakuraSignal

/-! ## JavaScript values -/

/-- Truthiness of a possibly undefined string: `undefined` and `""` are falsy. -/
def truthy : Option String → Bool
  | none => false
  | some s => s != ""

/-- The JavaScript expression `a || b` for a possibly undefined string `a`. -/
def jsOr (a : Option String) (b : String) : String :=
  match a with
  | some s => if s != "" then s else b
  | none => b

/-! ## Configuration (lines 26-31) -/

/-- The environment variables read by the program (`process.env`). -/
structure ProcessEnv where
  PORT : Option String
  MEDIA_SERVER_URL : Option String
  MEDIA_SERVER_API_KEY : Option String
  CORS_ORIGIN : Option String
deriving DecidableEq, Repr

/-- Line 28: `process.env.MEDIA_SERVER_URL || "http://localhost:5000"`. -/
def MEDIA_SERVER_URL (env : ProcessEnv) : String :=
  jsOr env.MEDIA_SERVER_URL "http://localhost:5000"

/-- Line 30: `process.env.MEDIA_SERVER_API_KEY || "your-secret-key"`. -/
def MEDIA_SERVER_API_KEY (env : ProcessEnv) : String :=
  jsOr env.MEDIA_SERVER_API_KEY "your-secret-key"

/-! ## Sockets and the JavaScript `Map` -/

/-- A Socket.IO socket; the relay only ever reads its `id`. -/
structure Socket where
  id : String
deriving DecidableEq, Repr

/-- Method `Map.prototype.set` on the entry list: an existing key keeps its position and gets
the new value, a new key is appended. -/
def setEntries {κ ν : Type} [DecidableEq κ] (k : κ) (v : ν) : List (κ × ν) → List (κ × ν)
  | [] => [(k, v)]
  | (k', v') :: rest =>
    if k' = k then (k, v) :: rest else (k', v') :: setEntries k v rest

/-- Method `Map.prototype.get` on the entry list. -/
def getEntries {κ ν : Type} [DecidableEq κ] (k : κ) : List (κ × ν) → Option ν
  | [] => none
  | (k', v') :: rest => if k' = k then some v' else getEntries k rest

/-- Method `Map.prototype.delete` on the entry list. -/
def deleteEntries {κ ν : Type} [DecidableEq κ] (k : κ) (l : List (κ × ν)) : List (κ × ν) :=
  l.filter (fun e => decide (e.1 ≠ k))

/-- A JavaScript `Map`: its entries in insertion order, no key occurring twice. -/
structure JSMap (κ ν : Type) [DecidableEq κ] where
  entries : List (κ × ν)
  nodup : (entries.map Prod.fst).Nodup

namespace JSMap

variable {κ ν : Type} [DecidableEq κ]

/-- The value of `new Map()`. -/
def empty : JSMap κ ν := ⟨[], List.nodup_nil⟩

/-- The method `Map.prototype.get`: `none` is `undefined`. -/
def get (m : JSMap κ ν) (k : κ) : Option ν := getEntries k m.entries

/-- The method `Map.prototype.set`. -/
def set (m : JSMap κ ν) (k : κ) (v : ν) : JSMap κ ν :=
  ⟨setEntries k v m.entries, by
    have keys : ∀ l : List (κ × ν), (setEntries k v l).map Prod.fst =
        if k ∈ l.map Prod.fst then l.map Prod.fst else l.map Prod.fst ++ [k] := by
      intro l
      induction l with
      | nil => simp [setEntries]
      | cons e rest ih =>
        obtain ⟨k', v'⟩ := e
        by_cases h : k' = k
        · subst h; simp [setEntries]
        · have h' : ¬ k = k' := fun e => h e.symm
          simp only [setEntries, h, if_false, List.map_cons, ih, List.mem_cons, h', false_or]
          split <;> simp
    rw [keys]
    split
    · exact m.nodup
    · rename_i hk
      exact List.Nodup.append m.nodup (List.nodup_singleton k) (by simpa using hk)⟩

/-- The method `Map.prototype.delete`. -/
def delete (m : JSMap κ ν) (k : κ) : JSMap κ ν :=
  ⟨deleteEntries k m.entries,
    List.Nodup.sublist (List.Sublist.map _ (List.filter_sublist m.entries)) m.nodup⟩

end JSMap

/-- The type of `clientSocketMap` (line 34). -/
abbrev Registry := JSMap String Socket

/-! ## JSON values -/

/-- A value as `JSON.parse` returns it. A number is given by its exact value, or is an
infinity when the literal lies beyond the range of doubles; the members of an object are
listed as they stand in the text. -/
inductive Json where
  | null
  | bool (b : Bool)
  | num (x : ℚ)
  | infinity (negative : Bool)
  | str (s : String)
  | arr (items : List Json)
  | obj (members : List (String × Json))

/-- Truthiness of a value, as tested by `if (v)` and `!v`: `null`, `false`, `0` and `""`
are falsy, every other value is truthy. -/
def Json.truthy : Json → Bool
  | .null => false
  | .bool b => b
  | .num x => decide (x ≠ 0)
  | .infinity _ => true
  | .str s => s != ""
  | .arr _ => true
  | .obj _ => true

/-- Truthiness of a possibly undefined value. -/
def jsTruthy : Option Json → Bool
  | none => false
  | some v => v.truthy

/-- Value of the member called `name` in the members of an object; of two members with
one name `JSON.parse` keeps the later. -/
def memberOf (name : String) : List (String × Json) → Option Json
  | [] => none
  | (k, v) :: rest =>
    match memberOf name rest with
    | some w => some w
    | none => if k = name then some v else none

/-- Property read `body[name]` for a name that is neither an index nor a built-in
property (`clientId`, `sdpAnswer`): `undefined` unless `body` is an object with such a
member. -/
def Json.prop (body : Json) (name : String) : Option Json :=
  match body with
  | .obj members => memberOf name members
  | _ => none

/-- Call `clientSocketMap.get(clientId)` for a value taken from a body. The keys of the
map are strings and a `Map` compares keys by SameValueZero, under which only a string
is equal to a string. -/
def getByValue (clientSocketMap : Registry) : Json → Option Socket
  | .str clientId => clientSocketMap.get clientId
  | _ => none

/-! ## Observable effects -/

/-- Payload of a message emitted to a socket: `{ sdp }` or `{ message }`. -/
inductive Payload where
  | sdp (sdp : Json)
  | message (message : String)

/-- One call `socket.emit(event, payload)`. -/
structure Emit where
  socket : Socket
  event : String
  payload : Payload

/-- One call `axios.post(url, body, { headers })`; an undefined body field is `none`. -/
structure HttpPost where
  url : String
  body : List (String × Option String)
  headers : List (String × String)
deriving DecidableEq, Repr

/-- An HTTP response: its status and, when sent by `res.status(status).json({ message })`,
the message. A request refused by the body parser is answered by the error handler of
Express with the status of the error; `message` then holds the `type` of the error. -/
structure Response where
  status : Nat
  message : String
deriving DecidableEq, Repr

/-- Everything one handler run does besides updating `clientSocketMap`: messages emitted
to sockets, requests sent to the media server, keys looked up in `clientSocketMap`,
the HTTP response (for the Express route) and an exception escaping the handler. -/
structure Effects where
  emitted : List Emit := []
  posts : List HttpPost := []
  lookups : List Json := []
  response : Option Response := none
  raised : Option String := none

/-! ## Socket handlers (lines 47-110) -/

/-- Payload of a `register` message. -/
structure RegisterData where
  clientId : Option String
deriving DecidableEq, Repr

/-- Payload of an `sdp-offer` message. -/
structure OfferData where
  sdp : Option String
deriving DecidableEq, Repr

/-- Lines 51-57: `socket.on("register", ...)`. -/
def onRegister (socket : Socket) (data : RegisterData) (clientSocketMap : Registry) : Registry :=
  match data.clientId with
  | some clientId => if clientId != "" then clientSocketMap.set clientId socket else clientSocketMap
  | none => clientSocketMap

/-- Lines 65-76: the request sent by the `sdp-offer` handler. -/
def processSdpPost (env : ProcessEnv) (socket : Socket) (data : OfferData) : HttpPost :=
  { url := MEDIA_SERVER_URL env ++ "/process-sdp"
    body := [("sdp", data.sdp), ("clientId", some socket.id)]
    headers := [("x-api-key", MEDIA_SERVER_API_KEY env)] }

/-- Lines 61-78: the `try` block of the `sdp-offer` handler. The request is sent; `net`
is how the awaited `axios.post` settles: it resolves, or rejects with an error that
is thrown inside the block. -/
def sdpOfferTry (env : ProcessEnv) (socket : Socket) (data : OfferData)
    (net : Except String Unit) : Effects :=
  { posts := [processSdpPost env socket data]
    raised := match net with
      | .ok _ => none
      | .error e => some e }

/-- Lines 60-83: `socket.on("sdp-offer", ...)`; the `catch` block emits `error` to the
socket and swallows the exception. -/
def onSdpOffer (env : ProcessEnv) (socket : Socket) (data : OfferData)
    (net : Except String Unit) : Effects :=
  let fx := sdpOfferTry env socket data net
  match fx.raised with
  | none => fx
  | some _ =>
    { fx with
      raised := none
      emitted := fx.emitted ++ [⟨socket, "error", .message "Failed to process SDP Offer"⟩] }

/-- Lines 89-94: the loop over `clientSocketMap.entries()`; the first entry whose value
has the id of the socket is deleted by key and the loop is left. -/
def disconnectLoop (socket : Socket) : List (String × Socket) → Registry → Registry
  | [], clientSocketMap => clientSocketMap
  | (key, value) :: rest, clientSocketMap =>
    if value.id = socket.id then clientSocketMap.delete key
    else disconnectLoop socket rest clientSocketMap

/-- Lines 88-94: the cleanup of the `disconnect` handler. -/
def disconnectCleanup (socket : Socket) (clientSocketMap : Registry) : Registry :=
  disconnectLoop socket clientSocketMap.entries clientSocketMap

/-- Lines 96-105: the request sent by the `disconnect` handler. -/
def disconnectPost (env : ProcessEnv) (socket : Socket) : HttpPost :=
  { url := MEDIA_SERVER_URL env ++ "/disconnect"
    body := [("clientId", some socket.id)]
    headers := [("x-api-key", MEDIA_SERVER_API_KEY env)] }

/-- Lines 86-109: `socket.on("disconnect", ...)`. The promise of `axios.post` is not
awaited and its rejection is only logged by `.catch`, so `net` has no effect. -/
def onDisconnect (env : ProcessEnv) (socket : Socket) (_net : Except String Unit)
    (clientSocketMap : Registry) : Registry × Effects :=
  (disconnectCleanup socket clientSocketMap, { posts := [disconnectPost env socket] })

/-! ## The route `POST /media-server/answer` (lines 13, 37-44 and 119-138) -/

/-- The body of an incoming request as `bodyParser.json()` meets it:
* `skipped`: there is no body, or the content type is not `application/json`;
* `unsupportedCharset`: a JSON body in a charset other than `utf-*`;
* `unsupportedEncoding`: a JSON body in a content encoding the parser cannot inflate;
* `json length parsed`: a JSON body of `length` bytes, `parsed` being what `JSON.parse`
  makes of its text (`none` for a syntax error).
Requests cut off while the body is read are left out. -/
inductive RawBody where
  | skipped
  | unsupportedCharset
  | unsupportedEncoding
  | json (length : Nat) (parsed : Option Json)

/-- Line 13: `app.use(bodyParser.json())`, which runs before every route. The library
`body-parser` (1.x) is used with its defaults: a limit of `100kb` (102400 bytes) and
strict parsing (an object or an array at top level). It leaves `req.body` at the empty
object for a request it skips and for an empty body, and passes an error with status
413, 415 or 400 to the error handler otherwise. -/
def bodyParserJson : RawBody → Except Response Json
  | .skipped => .ok (.obj [])
  | .unsupportedCharset => .error ⟨415, "charset.unsupported"⟩
  | .unsupportedEncoding => .error ⟨415, "encoding.unsupported"⟩
  | .json length parsed =>
    if length > 102400 then .error ⟨413, "entity.too.large"⟩
    else if length = 0 then .ok (.obj [])
    else
      match parsed with
      | some (.obj members) => .ok (.obj members)
      | some (.arr items) => .ok (.arr items)
      | _ => .error ⟨400, "entity.parse.failed"⟩

/-- An incoming `POST /media-server/answer`: its `x-api-key` header and its body. -/
structure HttpRequest where
  apiKey : Option String
  body : RawBody

/-- The parts of `req` the route reads once the body is parsed: `req.headers["x-api-key"]`
and `req.body`. -/
structure AnswerRequest where
  apiKey : Option String
  body : Json

/-- Lines 120-137: the handler of the route. -/
def answerRoute (clientSocketMap : Registry) (req : AnswerRequest) : Effects :=
  match req.body.prop "clientId", req.body.prop "sdpAnswer" with
  | some clientId, some sdpAnswer =>
    if !clientId.truthy || !sdpAnswer.truthy then
      { response := some ⟨400, "clientId and sdpAnswer are required"⟩ }
    else
      match getByValue clientSocketMap clientId with
      | some clientSocket =>
        { lookups := [clientId]
          emitted := [⟨clientSocket, "sdp-answer", .sdp sdpAnswer⟩]
          response := some ⟨200, "SDP answer sent to client"⟩ }
      | none =>
        { lookups := [clientId]
          response := some ⟨404, "Client not connected"⟩ }
  | _, _ => { response := some ⟨400, "clientId and sdpAnswer are required"⟩ }

/-- Lines 37-44: the middleware; `next` is the rest of the route. -/
def verifyMediaServer (env : ProcessEnv) (req : AnswerRequest)
    (next : AnswerRequest → Effects) : Effects :=
  if truthy req.apiKey && decide (req.apiKey = some (MEDIA_SERVER_API_KEY env)) then
    next req
  else
    { response := some ⟨401, "Unauthorized"⟩ }

/-- Lines 13 and 119: a `POST /media-server/answer` goes through the body parser, which
answers by itself when it refuses the body, then through
`app.post("/media-server/answer", verifyMediaServer, handler)`. -/
def postMediaServerAnswer (env : ProcessEnv) (clientSocketMap : Registry)
    (http : HttpRequest) : Effects :=
  match bodyParserJson http.body with
  | .error res => { response := some res }
  | .ok body => verifyMediaServer env ⟨http.apiKey, body⟩ (answerRoute clientSocketMap)

/-! ## The event loop -/

/-- State of the process: `clientSocketMap` and the sockets Socket.IO holds open, that
is those which fired `connection` and have not yet fired `disconnect`. -/
structure Server where
  clientSocketMap : Registry
  sockets : List Socket

/-- State at start-up: line 34 and no connection. -/
def Server.init : Server := ⟨JSMap.empty, []⟩

/-- One unit of work of the event loop. -/
inductive Event where
  | connection (socket : Socket)
  | register (socket : Socket) (data : RegisterData)
  | sdpOffer (socket : Socket) (data : OfferData) (net : Except String Unit)
  | disconnect (socket : Socket) (net : Except String Unit)
  | answer (req : HttpRequest)

/-- Dispatch of one event. Socket.IO gives every open connection an id of its own and
calls the handlers of a socket only between its `connection` and its `disconnect`. -/
def step (env : ProcessEnv) (s : Server) : Event → Server × Effects
  | .connection socket =>
    if socket ∈ s.sockets then (s, {}) else ({ s with sockets := s.sockets ++ [socket] }, {})
  | .register socket data =>
    if socket ∈ s.sockets then
      ({ s with clientSocketMap := onRegister socket data s.clientSocketMap }, {})
    else (s, {})
  | .sdpOffer socket data net =>
    if socket ∈ s.sockets then (s, onSdpOffer env socket data net) else (s, {})
  | .disconnect socket net =>
    if socket ∈ s.sockets then
      let r := onDisconnect env socket net s.clientSocketMap
      ({ clientSocketMap := r.1, sockets := s.sockets.filter (fun x => decide (x ≠ socket)) }, r.2)
    else (s, {})
  | .answer req => (s, postMediaServerAnswer env s.clientSocketMap req)

/-- Run of a sequence of events: the final state and the effects of each event. -/
def run (env : ProcessEnv) (s : Server) : List Event → Server × List Effects
  | [] => (s, [])
  | e :: rest =>
    let r := step env s e
    let r' := run env r.1 rest
    (r'.1, r.2 :: r'.2)

/-- A state the process can be in: the result of some run from start-up. -/
def Reachable (env : ProcessEnv) (s : Server) : Prop :=
  ∃ evs : List Event, (run env Server.init evs).1 = s

/-- The environment with no variable set. -/
def defaultEnv : ProcessEnv := ⟨none, none, none, none⟩

/-! ## Lemmas on the `Map` model -/

theorem getEntries_setEntries_self {κ ν : Type} [DecidableEq κ] (k : κ) (v : ν)
    (l : List (κ × ν)) : getEntries k (setEntries k v l) = some v := by
  induction l with
  | nil => simp [setEntries, getEntries]
  | cons e rest ih =>
    obtain ⟨k', v'⟩ := e
    by_cases h : k' = k
    · simp [setEntries, getEntries, h]
    · simp [setEntries, getEntries, h, ih]

theorem not_mem_of_key_not_mem {κ ν : Type} (k : κ) (v : ν) (l : List (κ × ν))
    (h : k ∉ l.map Prod.fst) : (k, v) ∉ l := by
  intro hm
  exact h (List.mem_map.mpr ⟨(k, v), hm, rfl⟩)

theorem getEntries_eq_some_iff {κ ν : Type} [DecidableEq κ] (k : κ) (v : ν)
    (l : List (κ × ν)) (hl : (l.map Prod.fst).Nodup) :
    getEntries k l = some v ↔ (k, v) ∈ l := by
  induction l with
  | nil => simp [getEntries]
  | cons e rest ih =>
    obtain ⟨k', v'⟩ := e
    simp only [List.map_cons, List.nodup_cons] at hl
    by_cases h : k' = k
    · subst h
      have hn : (k', v) ∉ rest := not_mem_of_key_not_mem k' v rest hl.1
      simp only [getEntries, if_true, Option.some.injEq, List.mem_cons, Prod.mk.injEq, true_and,
        hn, or_false]
      exact eq_comm
    · have h' : ¬ k = k' := fun e => h e.symm
      simp [getEntries, h, h', ih hl.2]

theorem getEntries_eq_none_iff {κ ν : Type} [DecidableEq κ] (k : κ) (l : List (κ × ν)) :
    getEntries k l = none ↔ k ∉ l.map Prod.fst := by
  induction l with
  | nil => simp [getEntries]
  | cons e rest ih =>
    obtain ⟨k', v'⟩ := e
    by_cases h : k' = k
    · simp [getEntries, h]
    · have h' : ¬ k = k' := fun e => h e.symm
      simp only [getEntries, h, if_false, ih, List.map_cons, List.mem_cons, h', false_or]

theorem filter_key_setEntries {κ ν : Type} [DecidableEq κ] (k : κ) (v : ν)
    (l : List (κ × ν)) (hl : (l.map Prod.fst).Nodup) :
    (setEntries k v l).filter (fun e => decide (e.1 = k)) = [(k, v)] := by
  induction l with
  | nil => simp [setEntries]
  | cons e rest ih =>
    obtain ⟨k', v'⟩ := e
    simp only [List.map_cons, List.nodup_cons] at hl
    by_cases h : k' = k
    · subst h
      have hr : rest.filter (fun e => decide (e.1 = k')) = [] := by
        rw [List.filter_eq_nil_iff]
        intro a ha hk
        simp only [decide_eq_true_eq] at hk
        exact hl.1 (List.mem_map.mpr ⟨a, ha, hk⟩)
      simp [setEntries, hr]
    · simp [setEntries, h, ih hl.2]

theorem MEDIA_SERVER_API_KEY_ne_empty (env : ProcessEnv) : MEDIA_SERVER_API_KEY env ≠ "" := by
  unfold MEDIA_SERVER_API_KEY jsOr
  split
  · split
    · rename_i h; simpa using h
    · decide
  · decide

theorem JSMap.ext_entries {κ ν : Type} [DecidableEq κ] (m m' : JSMap κ ν)
    (h : m.entries = m'.entries) : m = m' := by
  cases m; cases m'; cases h; rfl

/-- The loop deletes the key of the first entry of `l` whose value has the id of the
socket, and leaves the map alone when `l` has no such entry. -/
theorem disconnectLoop_eq (socket : Socket) (l : List (String × Socket)) (m : Registry) :
    disconnectLoop socket l m =
      match l.find? (fun e => decide (e.2.id = socket.id)) with
      | some e => m.delete e.1
      | none => m := by
  induction l with
  | nil => simp [disconnectLoop]
  | cons e rest ih =>
    obtain ⟨key, value⟩ := e
    by_cases h : value.id = socket.id
    · simp [disconnectLoop, h]
    · simp [disconnectLoop, h, ih]

/-- Deleting the key of the first entry satisfying `p` removes exactly that entry. -/
theorem deleteEntries_eq_eraseP {κ ν : Type} [DecidableEq κ] (p : κ × ν → Bool)
    (l : List (κ × ν)) (hl : (l.map Prod.fst).Nodup) (e : κ × ν) (he : l.find? p = some e) :
    deleteEntries e.1 l = l.eraseP p := by
  induction l with
  | nil => simp at he
  | cons a rest ih =>
    simp only [List.map_cons, List.nodup_cons] at hl
    have hrest : ∀ x ∈ rest, x.1 ≠ a.1 := fun x hx hxa =>
      hl.1 (List.mem_map.mpr ⟨x, hx, hxa⟩)
    by_cases hp : p a = true
    · simp only [List.find?_cons, hp, Option.some.injEq] at he
      subst he
      simp only [deleteEntries, List.eraseP_cons, hp, cond_true, List.filter_cons, ne_eq,
        not_true_eq_false, decide_False, Bool.false_eq_true, if_false]
      rw [List.filter_eq_self]
      intro x hx
      simpa using hrest x hx
    · simp only [Bool.not_eq_true] at hp
      simp only [List.find?_cons, hp] at he
      have hmem : e ∈ rest := List.mem_of_find?_eq_some he
      have hne : a.1 ≠ e.1 := fun h => hrest e hmem h.symm
      have ih' := ih hl.2 he
      simp only [deleteEntries] at ih'
      simp only [deleteEntries, List.eraseP_cons, hp, cond_false, List.filter_cons, ne_eq, hne,
        not_false_eq_true, decide_True, if_true, ih']

theorem disconnectCleanup_entries (socket : Socket) (m : Registry) :
    (disconnectCleanup socket m).entries =
      m.entries.eraseP (fun e => decide (e.2.id = socket.id)) := by
  unfold disconnectCleanup
  rw [disconnectLoop_eq]
  cases hf : m.entries.find? (fun e => decide (e.2.id = socket.id)) with
  | none =>
    simp only
    rw [List.eraseP_of_forall_not]
    intro a ha
    have := List.find?_eq_none.mp hf a ha
    simpa using this
  | some e =>
    simp only [JSMap.delete]
    exact deleteEntries_eq_eraseP _ m.entries m.nodup e hf

theorem Registry.get_eq_some_iff (m : Registry) (k : String) (v : Socket) :
    m.get k = some v ↔ (k, v) ∈ m.entries :=
  getEntries_eq_some_iff k v m.entries m.nodup

theorem jsTruthy_eq_false_iff (v : Option Json) :
    jsTruthy v = false ↔
      v = none ∨ v = some .null ∨ v = some (.bool false) ∨ v = some (.num 0) ∨
        v = some (.str "") := by
  cases v with
  | none => simp [jsTruthy]
  | some j => cases j <;> simp [jsTruthy, Json.truthy]

theorem getByValue_eq_some_iff (m : Registry) (c : Json) (h : Socket) :
    getByValue m c = some h ↔ ∃ k, c = .str k ∧ (k, h) ∈ m.entries := by
  cases c <;> simp [getByValue, Registry.get_eq_some_iff]

theorem step_answer_refused (env : ProcessEnv) (s : Server) (req : HttpRequest)
    (res : Response) (hbody : bodyParserJson req.body = .error res) :
    step env s (.answer req) = (s, { response := some res }) := by
  simp [step, postMediaServerAnswer, hbody]

theorem step_answer_unauthorized (env : ProcessEnv) (s : Server) (req : HttpRequest)
    (body : Json) (hkey : req.apiKey ≠ some (MEDIA_SERVER_API_KEY env))
    (hbody : bodyParserJson req.body = .ok body) :
    step env s (.answer req) = (s, { response := some ⟨401, "Unauthorized"⟩ }) := by
  simp [step, postMediaServerAnswer, hbody, verifyMediaServer, hkey]

theorem step_answer_authorized (env : ProcessEnv) (s : Server) (req : HttpRequest)
    (body : Json) (hkey : req.apiKey = some (MEDIA_SERVER_API_KEY env))
    (hbody : bodyParserJson req.body = .ok body) :
    step env s (.answer req) = (s, answerRoute s.clientSocketMap ⟨req.apiKey, body⟩) := by
  have hne := MEDIA_SERVER_API_KEY_ne_empty env
  simp [step, postMediaServerAnswer, hbody, verifyMediaServer, hkey, truthy, hne]

/-- The three outcomes of the handler of the route, on a parsed body. -/
theorem answerRoute_outcome (m : Registry) (req : AnswerRequest) :
    (((answerRoute m req).response.map Response.status = some 400) ↔
      (jsTruthy (req.body.prop "clientId") = false ∨
        jsTruthy (req.body.prop "sdpAnswer") = false)) ∧
    ((jsTruthy (req.body.prop "clientId") = false ∨
        jsTruthy (req.body.prop "sdpAnswer") = false) →
      (answerRoute m req).emitted = [] ∧ (answerRoute m req).lookups = []) ∧
    (∀ c a : Json, req.body.prop "clientId" = some c → req.body.prop "sdpAnswer" = some a →
      c.truthy = true → a.truthy = true →
      (((answerRoute m req).response.map Response.status = some 200) ↔
        ∃ k h, c = .str k ∧ (k, h) ∈ m.entries) ∧
      (∀ k h, c = .str k → (k, h) ∈ m.entries →
        (answerRoute m req).response = some ⟨200, "SDP answer sent to client"⟩ ∧
        (answerRoute m req).emitted = [⟨h, "sdp-answer", .sdp a⟩]) ∧
      ((∀ k h, c = .str k → (k, h) ∉ m.entries) →
        (answerRoute m req).response = some ⟨404, "Client not connected"⟩ ∧
        (answerRoute m req).emitted = [])) := by
  unfold answerRoute
  cases hc : req.body.prop "clientId" with
  | none => simp [jsTruthy]
  | some c =>
    cases ha : req.body.prop "sdpAnswer" with
    | none => simp [jsTruthy]
    | some a =>
      by_cases hct : c.truthy = true
      · by_cases hat : a.truthy = true
        · cases hg : getByValue m c with
          | none =>
            have hno : ∀ k h, c = .str k → (k, h) ∉ m.entries := by
              intro k h hk hm
              have := (getByValue_eq_some_iff m c h).mpr ⟨k, hk, hm⟩
              rw [hg] at this
              cases this
            refine ⟨by simp [jsTruthy, hct, hat, hg], by simp [jsTruthy, hct, hat], ?_⟩
            intro c' a' hc' ha' _ _
            cases hc'
            cases ha'
            refine ⟨?_, ?_, ?_⟩
            · simp only [hct, hat, hg, Bool.not_true, Bool.or_self, Bool.false_eq_true, if_false,
                Option.map_some']
              constructor
              · intro h
                simp at h
              · rintro ⟨k, h, hk, hm⟩
                exact absurd hm (hno k h hk)
            · intro k h hk hm
              exact absurd hm (hno k h hk)
            · intro _
              simp [hct, hat, hg]
          | some h0 =>
            obtain ⟨k0, hk0, hm0⟩ := (getByValue_eq_some_iff m c h0).mp hg
            refine ⟨by simp [jsTruthy, hct, hat, hg], by simp [jsTruthy, hct, hat], ?_⟩
            intro c' a' hc' ha' _ _
            cases hc'
            cases ha'
            refine ⟨?_, ?_, ?_⟩
            · simp only [hct, hat, hg, Bool.not_true, Bool.or_self, Bool.false_eq_true, if_false,
                Option.map_some']
              exact ⟨fun _ => ⟨k0, h0, hk0, hm0⟩, fun _ => trivial⟩
            · intro k h hk hm
              have := (getByValue_eq_some_iff m c h).mpr ⟨k, hk, hm⟩
              rw [hg] at this
              cases this
              simp [hct, hat, hg]
            · intro hno
              exact absurd hm0 (hno k0 h0 hk0)
        · simp only [Bool.not_eq_true] at hat
          simp [jsTruthy, hct, hat]
      · simp only [Bool.not_eq_true] at hct
        simp [jsTruthy, hct]

theorem disconnectCleanup_of_no_entry (socket : Socket) (m : Registry)
    (h : ∀ e ∈ m.entries, e.2.id ≠ socket.id) : disconnectCleanup socket m = m := by
  apply JSMap.ext_entries
  rw [disconnectCleanup_entries]
  exact List.eraseP_of_forall_not (by simpa using h)

/-! ## The claims -/

/-- C2 as stated fails on a request the body parser refuses: with a wrong or absent key,
a body of 204800 bytes (the text of a valid answer for the registered `u1`, padded with
blanks) is answered 413 and a body of 12 bytes that is not JSON is answered 400,
not 401. -/
theorem unauthorized_answer_body_refused_first :
    (some "guess" ≠ some (MEDIA_SERVER_API_KEY defaultEnv)) ∧
    (step defaultEnv ⟨JSMap.empty.set "u1" ⟨"T1"⟩, [⟨"T1"⟩]⟩
      (.answer ⟨some "guess", .json 204800 (some (.obj [("clientId", .str "u1"), ("sdpAnswer", .str "ANSWER")]))⟩)).2.response
        = some ⟨413, "entity.too.large"⟩ ∧
    (step defaultEnv ⟨JSMap.empty.set "u1" ⟨"T1"⟩, [⟨"T1"⟩]⟩
      (.answer ⟨some "guess", .json 204800 (some (.obj [("clientId", .str "u1"), ("sdpAnswer", .str "ANSWER")]))⟩)).2.response
        ≠ some ⟨401, "Unauthorized"⟩ ∧
    (step defaultEnv ⟨JSMap.empty.set "u1" ⟨"T1"⟩, [⟨"T1"⟩]⟩
      (.answer ⟨none, .json 12 none⟩)).2.response
        = some ⟨400, "entity.parse.failed"⟩ := by
  decide

/-- C2 (authorization enforcement), amended: a call to `POST /media-server/answer` whose
`x-api-key` header is absent or differs from the configured key never changes the state
of the server, looks up no key, emits no message and sends no request. When the body
parser accepts the body, whatever its fields, the response is 401, so 401 comes before
the 400 and 404 of the handler; when the body parser refuses the body, the response is
the one of the parser (413, 415 or 400). -/
theorem unauthorized_answer_rejected (env : ProcessEnv) (s : Server) (req : HttpRequest)
    (hkey : req.apiKey ≠ some (MEDIA_SERVER_API_KEY env)) :
    (step env s (.answer req)).1 = s ∧
    (step env s (.answer req)).2.lookups = [] ∧
    (step env s (.answer req)).2.emitted = [] ∧
    (step env s (.answer req)).2.posts = [] ∧
    (step env s (.answer req)).2.raised = none ∧
    (∀ body, bodyParserJson req.body = .ok body →
      (step env s (.answer req)).2.response = some ⟨401, "Unauthorized"⟩) ∧
    (∀ res, bodyParserJson req.body = .error res →
      (step env s (.answer req)).2.response = some res) := by
  cases hb : bodyParserJson req.body with
  | error res =>
    rw [step_answer_refused env s req res hb]
    simp
  | ok body =>
    rw [step_answer_unauthorized env s req body hkey hb]
    simp

/-- Witness of C2: a wrong key on a request whose body is valid and whose `clientId` is
registered. -/
theorem unauthorized_answer_rejected_witness :
    (some "guess" ≠ some (MEDIA_SERVER_API_KEY defaultEnv) ∧
      bodyParserJson (.json 38 (some (.obj [("clientId", .str "u1"), ("sdpAnswer", .str "ANSWER")]))) =
        .ok (.obj [("clientId", .str "u1"), ("sdpAnswer", .str "ANSWER")])) ∧
    (step defaultEnv ⟨JSMap.empty.set "u1" ⟨"T1"⟩, [⟨"T1"⟩]⟩
      (.answer ⟨some "guess", .json 38 (some (.obj [("clientId", .str "u1"), ("sdpAnswer", .str "ANSWER")]))⟩)).2.response
        = some ⟨401, "Unauthorized"⟩ :=
  ⟨⟨by decide, rfl⟩,
   (unauthorized_answer_rejected defaultEnv ⟨JSMap.empty.set "u1" ⟨"T1"⟩, [⟨"T1"⟩]⟩
      ⟨some "guess", .json 38 (some (.obj [("clientId", .str "u1"), ("sdpAnswer", .str "ANSWER")]))⟩
      (by decide)).2.2.2.2.2.1 _ rfl⟩

/-- C3 (registration overwrite): for a non-empty `clientId` c and distinct sockets h1, h2,
after `register` of c by h1 and then by h2 the map gives h2 for c, holds exactly one entry
with key c, and no longer holds the entry (c, h1); and after any `register` of c by a
socket h the map gives h for c, whatever it held before. -/
theorem register_last_write_wins (m : Registry) (c : String) (h1 h2 : Socket)
    (hc : c ≠ "") (hne : h1 ≠ h2) :
    (onRegister h2 ⟨some c⟩ (onRegister h1 ⟨some c⟩ m)).get c = some h2 ∧
    (onRegister h2 ⟨some c⟩ (onRegister h1 ⟨some c⟩ m)).entries.filter
      (fun e => decide (e.1 = c)) = [(c, h2)] ∧
    (c, h1) ∉ (onRegister h2 ⟨some c⟩ (onRegister h1 ⟨some c⟩ m)).entries ∧
    (∀ (m' : Registry) (h : Socket), (onRegister h ⟨some c⟩ m').get c = some h) := by
  have hreg : ∀ (m' : Registry) (h : Socket), onRegister h ⟨some c⟩ m' = m'.set c h := by
    intro m' h
    simp [onRegister, hc]
  have hget : ∀ (m' : Registry) (h : Socket), (m'.set c h).get c = some h := by
    intro m' h
    exact getEntries_setEntries_self c h m'.entries
  refine ⟨?_, ?_, ?_, ?_⟩
  · rw [hreg, hget]
  · rw [hreg, hreg]
    exact filter_key_setEntries c h2 _ (m.set c h1).nodup
  · rw [hreg, hreg]
    intro hmem
    have h := (Registry.get_eq_some_iff ((m.set c h1).set c h2) c h1).mpr hmem
    rw [hget] at h
    exact hne (Option.some.inj h).symm
  · intro m' h
    rw [hreg, hget]

/-- Witness of C3: `u1` registered by `T1`, then by `T2`, in a map that already held an
entry. -/
theorem register_last_write_wins_witness :
    ("u1" ≠ "" ∧ (⟨"T1"⟩ : Socket) ≠ ⟨"T2"⟩) ∧
    (onRegister ⟨"T2"⟩ ⟨some "u1"⟩
      (onRegister ⟨"T1"⟩ ⟨some "u1"⟩ (JSMap.empty.set "u0" ⟨"T0"⟩))).get "u1" = some ⟨"T2"⟩ :=
  ⟨by decide,
   (register_last_write_wins (JSMap.empty.set "u0" ⟨"T0"⟩) "u1" ⟨"T1"⟩ ⟨"T2"⟩
      (by decide) (by decide)).1⟩

/-- C10 (frame of the disconnect cleanup): the cleanup removes exactly the first entry, in
insertion order, whose socket has the id of the disconnecting socket, and keeps every
other entry in place; without such an entry the map is unchanged; an entry of another
socket is never removed. -/
theorem disconnectCleanup_frame (socket : Socket) (m : Registry) :
    (disconnectCleanup socket m).entries =
      m.entries.eraseP (fun e => decide (e.2.id = socket.id)) ∧
    (∀ (pre : List (String × Socket)) (key : String) (value : Socket)
        (post : List (String × Socket)),
        m.entries = pre ++ (key, value) :: post → value.id = socket.id →
        (∀ e ∈ pre, e.2.id ≠ socket.id) →
        (disconnectCleanup socket m).entries = pre ++ post) ∧
    ((∀ e ∈ m.entries, e.2.id ≠ socket.id) → disconnectCleanup socket m = m) ∧
    (∀ e ∈ m.entries, e.2 ≠ socket → e ∈ (disconnectCleanup socket m).entries) := by
  refine ⟨disconnectCleanup_entries socket m, ?_, ?_, ?_⟩
  · intro pre key value post hm hv hpre
    rw [disconnectCleanup_entries, hm, List.eraseP_append_right _ (by simpa using hpre),
      List.eraseP_cons_of_pos (by simpa using hv)]
  · intro hnone
    apply JSMap.ext_entries
    rw [disconnectCleanup_entries]
    exact List.eraseP_of_forall_not (by simpa using hnone)
  · intro e he hne
    rw [disconnectCleanup_entries]
    have hid : ¬ e.2.id = socket.id := by
      intro h
      apply hne
      cases hs : e.2
      cases socket
      simp_all
    exact (List.mem_eraseP_of_neg (by simpa using hid)).mpr he

/-- Witness of C10: the entry of `T2` is removed from between those of `T1` and `T3`. -/
theorem disconnectCleanup_frame_witness :
    ((((JSMap.empty.set "a" ⟨"T1"⟩).set "b" ⟨"T2"⟩).set "c" ⟨"T3"⟩ : Registry).entries
        = [("a", ⟨"T1"⟩)] ++ ("b", ⟨"T2"⟩) :: [("c", ⟨"T3"⟩)] ∧
      (⟨"T2"⟩ : Socket).id = (⟨"T2"⟩ : Socket).id ∧
      (∀ e ∈ [(("a", ⟨"T1"⟩) : String × Socket)], e.2.id ≠ (⟨"T2"⟩ : Socket).id)) ∧
    (disconnectCleanup ⟨"T2"⟩
      (((JSMap.empty.set "a" ⟨"T1"⟩).set "b" ⟨"T2"⟩).set "c" ⟨"T3"⟩)).entries
        = [("a", ⟨"T1"⟩)] ++ [("c", ⟨"T3"⟩)] :=
  ⟨by decide,
   (disconnectCleanup_frame ⟨"T2"⟩
      (((JSMap.empty.set "a" ⟨"T1"⟩).set "b" ⟨"T2"⟩).set "c" ⟨"T3"⟩)).2.1
      [("a", ⟨"T1"⟩)] "b" ⟨"T2"⟩ [("c", ⟨"T3"⟩)] (by decide) (by decide) (by decide)⟩

/-- C7 as stated fails in two ways, with the correct key and `u1` registered: a body of
204800 bytes (the text of a valid answer for `u1`, padded with blanks) is answered 413
by the body parser and nothing is emitted, though `clientId` has an entry; and a body
whose `clientId` is the number 0, neither missing nor empty, is answered 400. -/
theorem authorized_answer_not_only_missing_or_empty :
    (some "your-secret-key" = some (MEDIA_SERVER_API_KEY defaultEnv)) ∧
    ((("u1", ⟨"T1"⟩) : String × Socket) ∈ (JSMap.empty.set "u1" ⟨"T1"⟩ : Registry).entries) ∧
    (step defaultEnv ⟨JSMap.empty.set "u1" ⟨"T1"⟩, [⟨"T1"⟩]⟩
      (.answer ⟨some "your-secret-key", .json 204800 (some (.obj [("clientId", .str "u1"), ("sdpAnswer", .str "ANSWER")]))⟩)).2.response
        = some ⟨413, "entity.too.large"⟩ ∧
    (step defaultEnv ⟨JSMap.empty.set "u1" ⟨"T1"⟩, [⟨"T1"⟩]⟩
      (.answer ⟨some "your-secret-key", .json 204800 (some (.obj [("clientId", .str "u1"), ("sdpAnswer", .str "ANSWER")]))⟩)).2.emitted
        = [] ∧
    Json.prop (.obj [("clientId", .num 0), ("sdpAnswer", .str "ANSWER")]) "clientId" = some (.num 0) ∧
    (step defaultEnv ⟨JSMap.empty.set "u1" ⟨"T1"⟩, [⟨"T1"⟩]⟩
      (.answer ⟨some "your-secret-key", .json 35 (some (.obj [("clientId", .num 0), ("sdpAnswer", .str "ANSWER")]))⟩)).2.response
        = some ⟨400, "clientId and sdpAnswer are required"⟩ :=
  ⟨by decide, by decide, by decide, rfl, rfl, by decide⟩

/-- C7 (delivery outcome with the correct key), amended: the state is never changed. A
body the parser refuses gets the response of the parser (413, 415 or 400) and nothing
is emitted or looked up. On a body the parser accepts, the status is 400 exactly when
`clientId` or `sdpAnswer` is falsy, that is undefined, `null`, `false`, `0` or `""`, and
then nothing is emitted or looked up; with both truthy the status is 200 exactly when
`clientId` is a string that has an entry in the map, and then the one message emitted is
`sdp-answer` with the `sdpAnswer` unchanged, to the socket of that entry; otherwise the
status is 404 and nothing is emitted. -/
theorem authorized_answer_outcome (env : ProcessEnv) (s : Server) (req : HttpRequest)
    (hkey : req.apiKey = some (MEDIA_SERVER_API_KEY env)) :
    (step env s (.answer req)).1 = s ∧
    (∀ res, bodyParserJson req.body = .error res →
      (step env s (.answer req)).2.response = some res ∧
      (step env s (.answer req)).2.emitted = [] ∧
      (step env s (.answer req)).2.lookups = []) ∧
    (∀ body, bodyParserJson req.body = .ok body →
      (((step env s (.answer req)).2.response.map Response.status = some 400) ↔
        (jsTruthy (body.prop "clientId") = false ∨
          jsTruthy (body.prop "sdpAnswer") = false)) ∧
      ((jsTruthy (body.prop "clientId") = false ∨
          jsTruthy (body.prop "sdpAnswer") = false) →
        (step env s (.answer req)).2.emitted = [] ∧
        (step env s (.answer req)).2.lookups = []) ∧
      (∀ c a : Json, body.prop "clientId" = some c → body.prop "sdpAnswer" = some a →
        c.truthy = true → a.truthy = true →
        (((step env s (.answer req)).2.response.map Response.status = some 200) ↔
          ∃ k h, c = .str k ∧ (k, h) ∈ s.clientSocketMap.entries) ∧
        (∀ k h, c = .str k → (k, h) ∈ s.clientSocketMap.entries →
          (step env s (.answer req)).2.response = some ⟨200, "SDP answer sent to client"⟩ ∧
          (step env s (.answer req)).2.emitted = [⟨h, "sdp-answer", .sdp a⟩]) ∧
        ((∀ k h, c = .str k → (k, h) ∉ s.clientSocketMap.entries) →
          (step env s (.answer req)).2.response = some ⟨404, "Client not connected"⟩ ∧
          (step env s (.answer req)).2.emitted = []))) ∧
    (∀ v : Option Json, jsTruthy v = false ↔
      v = none ∨ v = some .null ∨ v = some (.bool false) ∨ v = some (.num 0) ∨
        v = some (.str "")) := by
  refine ⟨rfl, ?_, ?_, jsTruthy_eq_false_iff⟩
  · intro res hb
    rw [step_answer_refused env s req res hb]
    simp
  · intro body hb
    rw [step_answer_authorized env s req body hkey hb]
    exact answerRoute_outcome s.clientSocketMap ⟨req.apiKey, body⟩

/-- Witness of C7: with the default key, an answer for the registered `u1` is pushed to
its socket `T1` and to no other. -/
theorem authorized_answer_outcome_witness :
    (some "your-secret-key" = some (MEDIA_SERVER_API_KEY defaultEnv) ∧
      bodyParserJson (.json 38 (some (.obj [("clientId", .str "u1"), ("sdpAnswer", .str "ANSWER")]))) =
        .ok (.obj [("clientId", .str "u1"), ("sdpAnswer", .str "ANSWER")]) ∧
      Json.prop (.obj [("clientId", .str "u1"), ("sdpAnswer", .str "ANSWER")]) "clientId" = some (.str "u1") ∧
      Json.prop (.obj [("clientId", .str "u1"), ("sdpAnswer", .str "ANSWER")]) "sdpAnswer" = some (.str "ANSWER") ∧
      (Json.str "u1").truthy = true ∧ (Json.str "ANSWER").truthy = true ∧
      (("u1", ⟨"T1"⟩) : String × Socket) ∈
        ((JSMap.empty.set "u1" ⟨"T1"⟩).set "u2" ⟨"T2"⟩ : Registry).entries) ∧
    ((step defaultEnv ⟨(JSMap.empty.set "u1" ⟨"T1"⟩).set "u2" ⟨"T2"⟩, [⟨"T1"⟩, ⟨"T2"⟩]⟩
        (.answer ⟨some "your-secret-key", .json 38 (some (.obj [("clientId", .str "u1"), ("sdpAnswer", .str "ANSWER")]))⟩)).2.response
        = some ⟨200, "SDP answer sent to client"⟩ ∧
      (step defaultEnv ⟨(JSMap.empty.set "u1" ⟨"T1"⟩).set "u2" ⟨"T2"⟩, [⟨"T1"⟩, ⟨"T2"⟩]⟩
        (.answer ⟨some "your-secret-key", .json 38 (some (.obj [("clientId", .str "u1"), ("sdpAnswer", .str "ANSWER")]))⟩)).2.emitted
        = [⟨⟨"T1"⟩, "sdp-answer", .sdp (.str "ANSWER")⟩]) :=
  ⟨⟨by decide, rfl, rfl, rfl, rfl, rfl, by decide⟩,
   (((authorized_answer_outcome defaultEnv ⟨(JSMap.empty.set "u1" ⟨"T1"⟩).set "u2" ⟨"T2"⟩, [⟨"T1"⟩, ⟨"T2"⟩]⟩
      ⟨some "your-secret-key", .json 38 (some (.obj [("clientId", .str "u1"), ("sdpAnswer", .str "ANSWER")]))⟩
      (by decide)).2.2.1 _ rfl).2.2
      (.str "u1") (.str "ANSWER") rfl rfl rfl rfl).2.1 "u1" ⟨"T1"⟩ rfl (by decide)⟩

/-- C8 (correlation key on the outbound leg): whatever the registry holds, the one
request of the `sdp-offer` handler goes to `/process-sdp` with body
`{ sdp: data.sdp, clientId: socket.id }` and the configured `x-api-key`, and the one
request of the `disconnect` handler goes to `/disconnect` with body
`{ clientId: socket.id }`. -/
theorem outbound_clientId_is_transport_id (env : ProcessEnv) (s : Server) (socket : Socket)
    (data : OfferData) (net : Except String Unit) (hlive : socket ∈ s.sockets) :
    (step env s (.sdpOffer socket data net)).2.posts =
      [⟨MEDIA_SERVER_URL env ++ "/process-sdp",
        [("sdp", data.sdp), ("clientId", some socket.id)],
        [("x-api-key", MEDIA_SERVER_API_KEY env)]⟩] ∧
    (step env s (.disconnect socket net)).2.posts =
      [⟨MEDIA_SERVER_URL env ++ "/disconnect",
        [("clientId", some socket.id)],
        [("x-api-key", MEDIA_SERVER_API_KEY env)]⟩] := by
  constructor
  · cases net <;>
      simp [step, hlive, onSdpOffer, sdpOfferTry, processSdpPost]
  · simp [step, hlive, onDisconnect, disconnectPost]

/-- Witness of C8: socket `T1` has registered the alias `u1`; the offer is still sent
with `clientId` `T1`. -/
theorem outbound_clientId_is_transport_id_witness :
    ((⟨"T1"⟩ : Socket) ∈ [(⟨"T1"⟩ : Socket)]) ∧
    (step defaultEnv ⟨JSMap.empty.set "u1" ⟨"T1"⟩, [⟨"T1"⟩]⟩
      (.sdpOffer ⟨"T1"⟩ ⟨some "OFFER"⟩ (.ok ()))).2.posts =
      [⟨"http://localhost:5000/process-sdp",
        [("sdp", some "OFFER"), ("clientId", some "T1")],
        [("x-api-key", "your-secret-key")]⟩] :=
  ⟨by decide,
   (outbound_clientId_is_transport_id defaultEnv ⟨JSMap.empty.set "u1" ⟨"T1"⟩, [⟨"T1"⟩]⟩
      ⟨"T1"⟩ ⟨some "OFFER"⟩ (.ok ()) (by decide)).1⟩

/-- C9 (offer forward failure isolation): when the request of the `sdp-offer` handler
fails, exactly one message, `error`, is emitted, to the socket that sent the offer; the
request was sent once, no exception leaves the handler, and the state of the server is
unchanged, so every later run of events goes as it would have gone from the state
before; when the request succeeds nothing is emitted. -/
theorem offer_failure_isolated (env : ProcessEnv) (s : Server) (socket : Socket)
    (data : OfferData) (err : String) (hlive : socket ∈ s.sockets) :
    (step env s (.sdpOffer socket data (.error err))).1 = s ∧
    (step env s (.sdpOffer socket data (.error err))).2.emitted =
      [⟨socket, "error", .message "Failed to process SDP Offer"⟩] ∧
    (step env s (.sdpOffer socket data (.error err))).2.posts =
      [processSdpPost env socket data] ∧
    (step env s (.sdpOffer socket data (.error err))).2.raised = none ∧
    (∀ evs : List Event,
      run env (step env s (.sdpOffer socket data (.error err))).1 evs = run env s evs) ∧
    (step env s (.sdpOffer socket data (.ok ()))).1 = s ∧
    (step env s (.sdpOffer socket data (.ok ()))).2.emitted = [] ∧
    (step env s (.sdpOffer socket data (.ok ()))).2.raised = none := by
  simp [step, hlive, onSdpOffer, sdpOfferTry]

/-- Witness of C9: the offer of the only open socket fails. -/
theorem offer_failure_isolated_witness :
    ((⟨"T1"⟩ : Socket) ∈ [(⟨"T1"⟩ : Socket)]) ∧
    (step defaultEnv ⟨JSMap.empty.set "u1" ⟨"T1"⟩, [⟨"T1"⟩]⟩
      (.sdpOffer ⟨"T1"⟩ ⟨some "OFFER"⟩ (.error "ECONNREFUSED"))).2.emitted =
      [⟨⟨"T1"⟩, "error", .message "Failed to process SDP Offer"⟩] :=
  ⟨by decide,
   (offer_failure_isolated defaultEnv ⟨JSMap.empty.set "u1" ⟨"T1"⟩, [⟨"T1"⟩]⟩
      ⟨"T1"⟩ ⟨some "OFFER"⟩ "ECONNREFUSED" (by decide)).2.1⟩

/-- C1 (addressability by transport identifier) evaluated on the code: socket `T1`
connects and a correctly authenticated answer for `clientId` `T1` arrives, first with no
`register` sent, then after `register` of the alias `u1` and a forwarded offer. In both
runs the key `T1` is looked up in `clientSocketMap`, which has no such key: the response
is 404 and nothing is emitted to the socket. -/
theorem answer_by_transport_id_not_found :
    (run defaultEnv Server.init
      [.connection ⟨"T1"⟩,
       .answer ⟨some "your-secret-key", .json 38 (some (.obj [("clientId", .str "T1"), ("sdpAnswer", .str "ANSWER")]))⟩]).2 =
      [{}, { lookups := [.str "T1"], response := some ⟨404, "Client not connected"⟩ }] ∧
    (run defaultEnv Server.init
      [.connection ⟨"T1"⟩,
       .register ⟨"T1"⟩ ⟨some "u1"⟩,
       .sdpOffer ⟨"T1"⟩ ⟨some "OFFER"⟩ (.ok ()),
       .answer ⟨some "your-secret-key", .json 38 (some (.obj [("clientId", .str "T1"), ("sdpAnswer", .str "ANSWER")]))⟩]).2 =
      [{}, {},
       { posts := [⟨"http://localhost:5000/process-sdp",
                    [("sdp", some "OFFER"), ("clientId", some "T1")],
                    [("x-api-key", "your-secret-key")]⟩] },
       { lookups := [.str "T1"], response := some ⟨404, "Client not connected"⟩ }] :=
  ⟨rfl, rfl⟩

/-- C4 (disconnect idempotence): the cleanup runs in the `disconnect` handler only. For
every state and socket, after the `disconnect` of the socket a second `disconnect` of it
leaves the whole state, the registry included, as the first left it and does nothing
else; neither raises; and the `disconnect` of a socket that no entry references leaves
the registry as it was. -/
theorem disconnect_twice_same_registry (env : ProcessEnv) (s : Server) (socket : Socket)
    (net net2 : Except String Unit) :
    (step env (step env s (.disconnect socket net)).1 (.disconnect socket net2)).1 =
      (step env s (.disconnect socket net)).1 ∧
    (run env s [.disconnect socket net, .disconnect socket net2]).1.clientSocketMap =
      (run env s [.disconnect socket net]).1.clientSocketMap ∧
    (step env s (.disconnect socket net)).2.raised = none ∧
    (step env (step env s (.disconnect socket net)).1 (.disconnect socket net2)).2.raised =
      none ∧
    (step env (step env s (.disconnect socket net)).1 (.disconnect socket net2)).2.posts =
      [] ∧
    ((∀ e ∈ s.clientSocketMap.entries, e.2.id ≠ socket.id) →
      (step env s (.disconnect socket net)).1.clientSocketMap = s.clientSocketMap) := by
  by_cases hlive : socket ∈ s.sockets
  · refine ⟨?_, ?_, ?_, ?_, ?_, ?_⟩
    · simp [step, hlive, List.mem_filter]
    · simp [run, step, hlive, List.mem_filter]
    · simp [step, hlive, onDisconnect]
    · simp [step, hlive, List.mem_filter]
    · simp [step, hlive, List.mem_filter]
    · intro hno
      simp [step, hlive, onDisconnect, disconnectCleanup_of_no_entry socket s.clientSocketMap hno]
  · simp [run, step, hlive]

/-- Witness of C4: socket `T2` is open and has registered nothing; its `disconnect`
leaves the entry of `T1` in place. -/
theorem disconnect_twice_same_registry_witness :
    (∀ e ∈ (JSMap.empty.set "u1" ⟨"T1"⟩ : Registry).entries, e.2.id ≠ (⟨"T2"⟩ : Socket).id) ∧
    (step defaultEnv ⟨JSMap.empty.set "u1" ⟨"T1"⟩, [⟨"T1"⟩, ⟨"T2"⟩]⟩
      (.disconnect ⟨"T2"⟩ (.ok ()))).1.clientSocketMap = JSMap.empty.set "u1" ⟨"T1"⟩ :=
  ⟨by decide,
   (disconnect_twice_same_registry defaultEnv
      ⟨JSMap.empty.set "u1" ⟨"T1"⟩, [⟨"T1"⟩, ⟨"T2"⟩]⟩ ⟨"T2"⟩ (.ok ()) (.ok ())).2.2.2.2.2
      (by decide)⟩

/-- C5 (answer delivery after disconnect) evaluated on the code: socket `T1` registers
the aliases `a` and `b` and disconnects. The cleanup removes `a` only; the socket is no
longer open, the entry of `b` still references it, and an authenticated answer for `b`
is answered 200 and emitted to the closed socket. -/
theorem answer_delivered_after_disconnect :
    (run defaultEnv Server.init
      [.connection ⟨"T1"⟩,
       .register ⟨"T1"⟩ ⟨some "a"⟩,
       .register ⟨"T1"⟩ ⟨some "b"⟩,
       .disconnect ⟨"T1"⟩ (.ok ()),
       .answer ⟨some "your-secret-key", .json 37 (some (.obj [("clientId", .str "b"), ("sdpAnswer", .str "ANSWER")]))⟩]).1.sockets = [] ∧
    (run defaultEnv Server.init
      [.connection ⟨"T1"⟩,
       .register ⟨"T1"⟩ ⟨some "a"⟩,
       .register ⟨"T1"⟩ ⟨some "b"⟩,
       .disconnect ⟨"T1"⟩ (.ok ()),
       .answer ⟨some "your-secret-key", .json 37 (some (.obj [("clientId", .str "b"), ("sdpAnswer", .str "ANSWER")]))⟩]).1.clientSocketMap.entries =
      [("b", ⟨"T1"⟩)] ∧
    (run defaultEnv Server.init
      [.connection ⟨"T1"⟩,
       .register ⟨"T1"⟩ ⟨some "a"⟩,
       .register ⟨"T1"⟩ ⟨some "b"⟩,
       .disconnect ⟨"T1"⟩ (.ok ()),
       .answer ⟨some "your-secret-key", .json 37 (some (.obj [("clientId", .str "b"), ("sdpAnswer", .str "ANSWER")]))⟩]).2.getLast? =
      some { lookups := [.str "b"]
             emitted := [⟨⟨"T1"⟩, "sdp-answer", .sdp (.str "ANSWER")⟩]
             response := some ⟨200, "SDP answer sent to client"⟩ } :=
  ⟨rfl, rfl, rfl⟩

/-- C6 (registry invariant) evaluated on the code: a state is reachable in which two
distinct keys of `clientSocketMap` hold the same socket, namely after one socket has
sent `register` with `a` and then with `b`. -/
theorem two_aliases_reference_one_socket :
    ∃ s : Server, Reachable defaultEnv s ∧
      ∃ (k1 k2 : String) (h : Socket), k1 ≠ k2 ∧
        (k1, h) ∈ s.clientSocketMap.entries ∧ (k2, h) ∈ s.clientSocketMap.entries :=
  ⟨_, ⟨[.connection ⟨"T1"⟩, .register ⟨"T1"⟩ ⟨some "a"⟩, .register ⟨"T1"⟩ ⟨some "b"⟩], rfl⟩,
    "a", "b", ⟨"T1"⟩, by decide, by decide, by decide⟩


end SakuraSignal
